import Mathlib

/-!
# Verification of the instantmonie payment reconciliation core

A shallow embedding of the payment-event reconciliation engine:

* the fee calculators of `src/controllers/payment.controller.ts`
  (`receivePayment`, step 8) and `src/controllers/otp.controller.ts`
  (`calculateCharges`),
* the inbound credit webhook processor (`receivePayment`),
* the withdrawal initiator (`initiatePayment`) with its in-process
  rate-limit and duplicate-attempt caches,
* the PalmPay notification handler of `otp.controller.ts`
  (`processPayment` / `handlePaymentNotification`),
* the inbound signature verifier of `src/utils/verifySignature.ts`.

Modelling conventions:

* JS numbers are modelled as rationals (`ℚ`); `Math.round(x*100)/100`
  becomes `round2`, `Math.floor` becomes `Rat.floor`, `Math.min` is `min`.
* A JS `x || d` fallback on a numeric config field is `orDefault x d`:
  both `undefined` and `0` are falsy and select the default `d`, so a
  missing field is represented by `0`.
* The MongoDB store is a list of transaction records plus the single
  business document.  The unique indexes of `transaction.model.ts`
  (`orderNo` unique sparse; compound `business+orderId+type` unique
  sparse) are enforced by `createTxn`: an insert violating them throws,
  which the controllers observe as an exception of `Transaction.create`.
  A single-field sparse index skips documents missing the field; a
  compound sparse index indexes every document having at least one of
  the keys, storing a missing key as null — since `business` and
  `type` are always present, every record occupies a compound key
  `(business, orderId-or-null, type)`.
* Mongoose runs schema validators on `save()`; the `min : 0` validator
  on `Business.balance` makes a save of a negative balance throw.
* Each controller invocation is one atomic step of the model (the
  claims under study are about a single in-flight request at a time).
-/

/-- Monetary values (standard currency units) as exact rationals. -/
abbrev Money := ℚ

/-- JS `Math.round` rounds half toward positive infinity: `⌊x + 1/2⌋`. -/
def jsRound (q : ℚ) : ℤ := ⌊q + 1/2⌋

/-- `Math.round(q * 100) / 100`: round to 2 decimal places, half up. -/
def round2 (q : Money) : Money := (jsRound (q * 100) : ℚ) / 100

/-- JS `x || d` on a numeric field: `0` (and a missing field, which we
represent by `0`) is falsy and falls back to `d`. -/
def orDefault (x d : Money) : Money := if x = 0 then d else x

/-- `business.charges.payment.type` in `bussiness.model.ts`. -/
inductive ChargeKind
  | percentage
  | fixed
deriving DecidableEq

/-- `business.charges.payment` of `bussiness.model.ts`. -/
structure PaymentChargeCfg where
  percentage : Money
  cap : Money
  useDefault : Bool
  fixedPrice : Money
  type : ChargeKind
deriving DecidableEq

/-- One withdrawal fee tier `{min, max, fee}`. -/
structure FeeTier where
  min : Money
  max : Money
  fee : Money
deriving DecidableEq

/-- Open-ended top tier `{min, fee}`. -/
structure TopFeeTier where
  min : Money
  fee : Money
deriving DecidableEq

/-- `business.charges.withdrawal` of `bussiness.model.ts`. -/
structure WithdrawalChargeCfg where
  tier1 : FeeTier
  tier2 : FeeTier
  tier3 : TopFeeTier
  useDefault : Bool
deriving DecidableEq

/-- `business.charges` (optional in the TS interface). -/
structure BusinessCharges where
  payment : PaymentChargeCfg
  withdrawal : WithdrawalChargeCfg
deriving DecidableEq

/-- `business.charges?.payment`. -/
def chargesPayment (c : Option BusinessCharges) : Option PaymentChargeCfg :=
  c.map (fun b => b.payment)

/-- Charge computation of `receivePayment`, step 8
(`payment.controller.ts` lines 158-193).  Defaults: 1.5 percent capped
at 500; the single `Math.round(chargeAmount*100)/100` at line 193
applies to every branch. -/
def receivePaymentCharge (cfg : Option PaymentChargeCfg) (amountInStandard : Money) : Money :=
  let raw : Money :=
    match cfg with
    | none => min (amountInStandard * 1.5 / 100) 500
    | some c =>
      if c.useDefault = false then
        match c.type with
        | ChargeKind.fixed => orDefault c.fixedPrice 0
        | ChargeKind.percentage =>
          min (amountInStandard * orDefault c.percentage 1.5 / 100) (orDefault c.cap 500)
      else
        min (amountInStandard * orDefault c.percentage 1.5 / 100) (orDefault c.cap 500)
  round2 raw

/-- `calculateCharges` of `otp.controller.ts` (lines 203-244).
Defaults: `DEFAULT_CHARGE_PERCENTAGE = 1`, `DEFAULT_CHARGE_CAP = 500`;
the fixed branch does not round.  Returns `(chargeAmount, netAmount)`. -/
def calculateCharges (cfg : Option PaymentChargeCfg) (amount : Money) : Money × Money :=
  let chargeAmount : Money :=
    match cfg with
    | none => round2 (min (amount * 1 / 100) 500)
    | some c =>
      if c.useDefault = false then
        match c.type with
        | ChargeKind.fixed => orDefault c.fixedPrice 0
        | ChargeKind.percentage =>
          round2 (min (amount * orDefault c.percentage 1 / 100) (orDefault c.cap 500))
      else
        round2 (min (amount * orDefault c.percentage 1 / 100) (orDefault c.cap 500))
  (chargeAmount, amount - chargeAmount)

/-- The fee formula of spec section 4.2 rule 3, stated from the spec's
words for comparison: `min(amount * percentage / 100, cap)` rounded to
2 decimal places. -/
def specPercentageCharge (pct cap amount : Money) : Money :=
  round2 (min (amount * pct / 100) cap)

/-- Default withdrawal fee tiers of `initiatePayment`, step 9
(`payment.controller.ts` lines 736-767). -/
def defaultWithdrawalFee (amount : Money) : Money :=
  if 0 ≤ amount ∧ amount ≤ 5000 then 20
  else if 5000.01 ≤ amount ∧ amount ≤ 50000 then 40
  else if 50000.01 ≤ amount then 65
  else 0

/-- Withdrawal fee selection of `initiatePayment`, step 9: custom tiers
are used only when `business.charges.withdrawal` exists and
`useDefault` is false; an amount matching no tier leaves
`withdrawalFee = 0`. -/
def withdrawalFee (charges : Option BusinessCharges) (amount : Money) : Money :=
  match charges with
  | some c =>
    if c.withdrawal.useDefault = false then
      if c.withdrawal.tier1.min ≤ amount ∧ amount ≤ c.withdrawal.tier1.max then
        c.withdrawal.tier1.fee
      else if c.withdrawal.tier2.min ≤ amount ∧ amount ≤ c.withdrawal.tier2.max then
        c.withdrawal.tier2.fee
      else if c.withdrawal.tier3.min ≤ amount then
        c.withdrawal.tier3.fee
      else 0
    else defaultWithdrawalFee amount
  | none => defaultWithdrawalFee amount

/-- `transaction.model.ts` transaction type (the controllers under
study create only `payment` and `withdrawal` records). -/
inductive TxnType
  | payment
  | withdrawal
deriving DecidableEq

/-- `transaction.model.ts` status enum. -/
inductive TxnStatus
  | pending
  | completed
  | failed
  | cancelled
  | refunded
deriving DecidableEq

/-- A transaction document, with the fields the claims are about.
`webhookId` is `metadata.webhookId`; `failedAtMs` / `updatedAtMs` are
epoch-millisecond timestamps (`failedAt` is stamped by the pre-save
hook when status becomes `failed`). -/
structure Txn where
  orderNo : Option String
  orderId : Option String
  webhookId : Option String
  type : TxnType
  status : TxnStatus
  amount : Money
  previousBalance : Money
  newBalance : Money
  chargeAmount : Money
  failedAtMs : Option ℤ
  updatedAtMs : ℤ
deriving DecidableEq

/-- The single business document: `balance`, the `__v` optimistic-lock
version, and the fee configuration. -/
structure BizState where
  balance : Money
  version : ℕ
  charges : Option BusinessCharges
deriving DecidableEq

/-- Store state: the business, the transaction collection, and the
`AccountNumber` bindings (virtual account numbers resolving to this
business). -/
structure SysState where
  biz : BizState
  txns : List Txn
  bindings : List String
deriving DecidableEq

/-- `Transaction.create`: `none` when the write violates a unique
index of `transaction.model.ts` — `orderNo` (unique sparse, line 141:
a single-field sparse index skips documents without `orderNo`) or the
compound `business + orderId + type` (unique sparse, line 145; the
single business is implicit).  A sparse **compound** index indexes
every document carrying at least one of its keys and stores a missing
key as null; `business` and `type` are always present, so every record
is indexed and two records with equal `orderId`-or-null and equal
`type` collide — in particular two orderId-less payment records. -/
def createTxn (txns : List Txn) (t : Txn) : Option (List Txn) :=
  let orderNoClash :=
    match t.orderNo with
    | some o => txns.any (fun u => u.orderNo == some o)
    | none => false
  let orderIdClash := txns.any (fun u => u.orderId == t.orderId && u.type == t.type)
  if orderNoClash || orderIdClash then none else some (t :: txns)

/-- The inbound PalmPay credit webhook body, after signature
verification is abstracted into `sigValid` (the outcome of
`verifySignature(req.body)`).  A missing field is the empty string /
zero amount (JS falsiness). -/
structure CreditWebhook where
  orderNo : String
  orderAmount : Money
  virtualAccountNo : String
  sigValid : Bool
deriving DecidableEq

/-- The HTTP acknowledgement of `receivePayment`: always status 200,
sent before any processing; only the body's status flag differs. -/
inductive CreditAck
  | errorSig
  | successAck
deriving DecidableEq

/-- `receivePayment` acknowledges immediately after the signature gate
(lines 33-54); the asynchronous processing cannot change the response. -/
def receivePaymentAck (w : CreditWebhook) : CreditAck :=
  if w.sigValid = false then CreditAck.errorSig else CreditAck.successAck

/-- `t.orderNo == some o` holds for some record. -/
def hasOrderNoB (txns : List Txn) (o : String) : Bool :=
  txns.any (fun t => t.orderNo == some o)

/-- The state transition of `receivePayment`
(`payment.controller.ts` lines 19-294): signature gate, required-field
and amount validation, idempotency lookup on `(orderNo, metadata
.webhookId)`, binding resolution, optimistic-lock version increment,
charge computation, in-memory balance update, `Transaction.create`
(which throws on the `orderNo` unique index; the catch then skips
`business.save()`), and finally `business.save()` (whose `min : 0`
balance validator throws on a negative balance, after which the catch
marks the just-created record failed). -/
def receivePaymentStep (s : SysState) (w : CreditWebhook) (webhookId : String) : SysState :=
  if w.sigValid = false then s
  else if w.orderNo = "" ∨ w.orderAmount = 0 ∨ w.virtualAccountNo = "" then s
  else if w.orderAmount ≤ 0 then s
  else if s.txns.any (fun t => t.orderNo == some w.orderNo && t.webhookId == some webhookId) then s
  else if s.bindings.contains w.virtualAccountNo = false then s
  else
    let biz1 : BizState := { s.biz with version := s.biz.version + 1 }
    let amountInStandard := w.orderAmount / 100
    let chargeAmount := receivePaymentCharge (chargesPayment s.biz.charges) amountInStandard
    let netAmountAfterCharges := amountInStandard - chargeAmount
    let previousBalance := biz1.balance
    let newBalance := previousBalance + netAmountAfterCharges
    let tx : Txn :=
      { orderNo := some w.orderNo, orderId := none, webhookId := some webhookId,
        type := TxnType.payment, status := TxnStatus.completed,
        amount := amountInStandard, previousBalance := previousBalance,
        newBalance := newBalance, chargeAmount := chargeAmount,
        failedAtMs := none, updatedAtMs := 0 }
    match createTxn s.txns tx with
    | none => { s with biz := biz1 }
    | some txns1 =>
      if newBalance < 0 then
        { s with biz := biz1,
                 txns := { tx with status := TxnStatus.failed, failedAtMs := some 0 } :: s.txns }
      else
        { s with biz := { biz1 with balance := newBalance }, txns := txns1 }

/-- Gross-minus-charge net amount the credit path computes for a
webhook under a given fee configuration. -/
def netOf (charges : Option BusinessCharges) (w : CreditWebhook) : Money :=
  w.orderAmount / 100 - receivePaymentCharge (chargesPayment charges) (w.orderAmount / 100)

/-- The record `receivePaymentStep` creates on a fresh, valid webhook
whose balance save succeeds. -/
def creditTxnOf (s : SysState) (w : CreditWebhook) (webhookId : String) : Txn :=
  { orderNo := some w.orderNo, orderId := none, webhookId := some webhookId,
    type := TxnType.payment, status := TxnStatus.completed,
    amount := w.orderAmount / 100, previousBalance := s.biz.balance,
    newBalance := s.biz.balance + netOf s.biz.charges w,
    chargeAmount := receivePaymentCharge (chargesPayment s.biz.charges) (w.orderAmount / 100),
    failedAtMs := none, updatedAtMs := 0 }

/-- Replaying a list of webhook deliveries (same body `w`, webhook ids
`wids`, one per delivery) against a state. -/
def runCredits (s : SysState) (w : CreditWebhook) (wids : List String) : SysState :=
  wids.foldl (fun st wid => receivePaymentStep st w wid) s

/-- The id of the single business, as it appears in cache keys. -/
def businessIdStr : String := "biz1"

/-- One entry of `rateLimitCache`. -/
structure RateData where
  count : ℕ
  resetTime : ℤ
deriving DecidableEq

/-- `Map.set` on an association list. -/
def setEntry {α : Type} (m : List (String × α)) (k : String) (v : α) : List (String × α) :=
  (k, v) :: m.filter (fun p => !(p.1 == k))

/-- State visible to `initiatePayment`: the store plus the two
process-local caches (`paymentAttemptCache`, `rateLimitCache`). -/
structure WState where
  sys : SysState
  attemptCache : List (String × ℤ)
  rateLimitCache : List (String × RateData)
deriving DecidableEq

/-- Rate limiting, `initiatePayment` step 2 (lines 635-657):
window 5 minutes, 5 attempts; a 429 leaves the cache untouched. -/
def rateStep (st : WState) (rateKey : String) (now : ℤ) : Option Unit × WState :=
  let rd := (st.rateLimitCache.lookup rateKey).getD { count := 0, resetTime := now + 300000 }
  if now > rd.resetTime then
    (none, { st with rateLimitCache := setEntry st.rateLimitCache rateKey
                       { count := 1, resetTime := now + 300000 } })
  else if 5 ≤ rd.count then (some (), st)
  else
    (none, { st with rateLimitCache := setEntry st.rateLimitCache rateKey
                       { count := rd.count + 1, resetTime := rd.resetTime } })

/-- `paymentAttemptCache` hit, `initiatePayment` step 3 (lines
659-665): a cached attempt younger than 5 minutes. -/
def cacheHit (cache : List (String × ℤ)) (uid : String) (now : ℤ) : Bool :=
  match cache.lookup uid with
  | some ts => now - ts < 300000
  | none => false

/-- `Transaction.findOne({orderId, business, type: 'withdrawal'})`,
`initiatePayment` step 4 (lines 667-672). -/
def findWithdrawal (txns : List Txn) (orderId : String) : Option Txn :=
  txns.find? (fun t => t.orderId == some orderId && t.type == TxnType.withdrawal)

/-- Outcome of the `axios.post` payout call: an HTTP-level response
with PalmPay fields, or a thrown error (network failure, timeout,
non-2xx). -/
inductive Provider
  | resp (respCode : String) (orderNo : String) (orderStatus : ℤ)
  | netErr (msg : String)
deriving DecidableEq

/-- The response `initiatePayment` produces, one constructor per
`return` site. -/
inductive WOut
  | missingFields
  | rateLimited
  | dupCache
  | idempotentCompleted (orderNo : Option String) (amountCents : Money) (formatted : Money)
  | failedRetryWait
  | pendingConflict
  | invalidCurrency
  | belowMinimum
  | insufficientBalance
  | providerRejected (msg : String)
  | success (orderNo : String) (orderStatus : ℤ) (sentCents : ℤ) (amountAfterFee : Money)
      (fee : Money)
  | failedRecorded (msg : String)
  | lockError
deriving DecidableEq

/-- A failed-withdrawal audit record as created by the catch block of
`initiatePayment` (lines 908-934): no `orderNo`, balances as the
in-memory business document has them at catch time, `failedAt` stamped
by the pre-save hook. -/
def auditTxn (orderId : String) (amount bal fee : Money) (now : ℤ) : Txn :=
  { orderNo := none, orderId := some orderId, webhookId := none,
    type := TxnType.withdrawal, status := TxnStatus.failed,
    amount := amount, previousBalance := bal, newBalance := bal,
    chargeAmount := fee, failedAtMs := some now, updatedAtMs := now }

/-- `initiatePayment` from the optimistic-lock acquisition onward
(steps 6-20, lines 716-947): version increment, minimum-amount check,
tiered fee, balance sufficiency, attempt-cache insertion and cleanup,
provider payout call, balance debit + `business.save()`, record
creation, idempotency-key cleanup; the catch path writes the failed
audit record, and a throw inside that catch (a unique-index violation)
falls through to the outer catch (409 concurrency response). -/
def proceedWithdrawal (st : WState) (amount : Money) (orderId : String) (now : ℤ)
    (prov : Provider) (uid : String) : WOut × WState :=
  let biz1 : BizState := { st.sys.biz with version := st.sys.biz.version + 1 }
  let st1 : WState := { st with sys := { st.sys with biz := biz1 } }
  if amount < 100 then (WOut.belowMinimum, st1)
  else
    let fee := withdrawalFee biz1.charges amount
    let amountAfterFee := amount - fee
    if biz1.balance < amount then (WOut.insufficientBalance, st1)
    else
      let cache2 := (setEntry st1.attemptCache uid now).filter (fun p => now - p.2 ≤ 600000)
      let st2 : WState := { st1 with attemptCache := cache2 }
      let sentCents : ℤ := ⌊amountAfterFee * 100⌋
      match prov with
      | Provider.netErr msg =>
        match createTxn st2.sys.txns (auditTxn orderId amount biz1.balance fee now) with
        | some txns2 => (WOut.failedRecorded msg, { st2 with sys := { st2.sys with txns := txns2 } })
        | none => (WOut.lockError, st2)
      | Provider.resp respCode orderNo orderStatus =>
        if respCode ≠ "00000000" then (WOut.providerRejected respCode, st2)
        else
          let previousBalance := biz1.balance
          let newBal := previousBalance - amount
          if newBal < 0 then
            -- `business.save()` rejected by the balance validator;
            -- the catch writes the audit record (in-memory balance
            -- already decremented), the store keeps the old balance.
            match createTxn st2.sys.txns (auditTxn orderId amount newBal fee now) with
            | some txns2 =>
              (WOut.failedRecorded "validation", { st2 with sys := { st2.sys with txns := txns2 } })
            | none => (WOut.lockError, st2)
          else
            let st3 : WState :=
              { st2 with sys := { st2.sys with biz := { biz1 with balance := newBal } } }
            let record : Txn :=
              { orderNo := some orderNo, orderId := some orderId, webhookId := none,
                type := TxnType.withdrawal,
                status := if orderStatus = 2 then TxnStatus.completed else TxnStatus.pending,
                amount := amount, previousBalance := previousBalance, newBalance := newBal,
                chargeAmount := fee, failedAtMs := none, updatedAtMs := now }
            match createTxn st3.sys.txns record with
            | some txns2 =>
              (WOut.success orderNo orderStatus sentCents amountAfterFee fee,
               { st3 with sys := { st3.sys with txns := txns2 },
                          attemptCache := st3.attemptCache.filter (fun p => !(p.1 == uid)) })
            | none =>
              -- `Transaction.create` threw after the balance debit was
              -- saved; the catch then writes the audit record, which
              -- hits the same compound index.
              match createTxn st3.sys.txns (auditTxn orderId amount newBal fee now) with
              | some txns2 =>
                (WOut.failedRecorded "duplicate key", { st3 with sys := { st3.sys with txns := txns2 } })
              | none => (WOut.lockError, st3)

/-- `initiatePayment` (`payment.controller.ts` lines 620-948): field
validation, rate limiting, duplicate-attempt cache, database
idempotency check on `(businessId, orderId, type='withdrawal')`
(completed → idempotent replay of the stored record; failed → 2-minute
cooldown from `failedAt`; otherwise conflict), then the processing of
`proceedWithdrawal`. -/
def initiatePayment (st : WState) (amount : Money) (orderId otp ip : String) (now : ℤ)
    (prov : Provider) : WOut × WState :=
  if amount = 0 ∨ orderId = "" ∨ otp = "" then (WOut.missingFields, st)
  else
    match rateStep st (businessIdStr ++ "-" ++ ip) now with
    | (some _, st1) => (WOut.rateLimited, st1)
    | (none, st1) =>
      let uid := businessIdStr ++ "-" ++ orderId
      if cacheHit st1.attemptCache uid now then (WOut.dupCache, st1)
      else
        match findWithdrawal st1.sys.txns orderId with
        | some ex =>
          if ex.status = TxnStatus.completed then
            (WOut.idempotentCompleted ex.orderNo (ex.amount * 100) ex.amount, st1)
          else if ex.status = TxnStatus.failed then
            if now - (ex.failedAtMs.getD ex.updatedAtMs) < 120000 then
              (WOut.failedRetryWait, st1)
            else proceedWithdrawal st1 amount orderId now prov uid
          else (WOut.pendingConflict, st1)
        | none => proceedWithdrawal st1 amount orderId now prov uid

/-- The fail-fast rejections the idempotency layer can produce before
any fresh provider attempt. -/
def isGuardReject : WOut → Bool
  | WOut.dupCache => true
  | WOut.idempotentCompleted _ _ _ => true
  | WOut.failedRetryWait => true
  | WOut.pendingConflict => true
  | _ => false

/-- The default withdrawal tiers are in effect: no business config, or
`useDefault` set. -/
def usesDefaultTiers : Option BusinessCharges → Bool
  | none => true
  | some c => c.withdrawal.useDefault

/-- Conservation at record-creation time, as the code enforces it:
credits record `newBalance = previousBalance + (amount - charge)`
(whatever their final status); withdrawals recorded on a successful
payout (`pending`/`completed`) record the full-amount debit; failed
withdrawal audit records copy the balance unchanged. -/
def conserves (t : Txn) : Prop :=
  (t.type = TxnType.payment →
    t.newBalance - t.previousBalance = t.amount - t.chargeAmount)
  ∧ (t.type = TxnType.withdrawal → t.status ≠ TxnStatus.failed →
    t.newBalance - t.previousBalance = -t.amount)
  ∧ (t.type = TxnType.withdrawal → t.status = TxnStatus.failed →
    t.newBalance = t.previousBalance)

/-- Result of a JS expression that may throw. -/
inductive JsRes (α : Type)
  | ok (a : α)
  | exn (msg : String)
deriving DecidableEq

/-- The crypto primitives `verifySignature` calls, abstracted: URL
decoding and RSA-SHA1 verification may throw on malformed input; the
MD5 digest of a string is total. -/
structure CryptoOracle where
  decodeURIComponent : String → JsRes String
  md5UpperHex : String → String
  rsaSha1Verify : String → String → JsRes Bool

/-- An inbound notification object: the `sign` field (absent, or a
string) and the remaining key/value pairs (`none` models
null/undefined values). -/
structure PalmPayNotif where
  sign : Option String
  params : List (String × Option String)
deriving DecidableEq

/-- Insertion into a key-sorted association list. -/
def insertSorted (p : String × Option String) :
    List (String × Option String) → List (String × Option String)
  | [] => [p]
  | q :: rest => if p.1 ≤ q.1 then p :: q :: rest else q :: insertSorted p rest

/-- Keys sorted lexicographically, as `Object.keys(params).sort()`. -/
def sortParams (l : List (String × Option String)) : List (String × Option String) :=
  l.foldr insertSorted []

/-- The canonical string of `verifySignature` (lines 18-22): drop
null/undefined/empty values, sort keys, join `key=value` with `&`. -/
def buildStrA (params : List (String × Option String)) : String :=
  let kept := params.filter (fun p => !(p.2 == none) && !(p.2 == some ""))
  String.intercalate "&" ((sortParams kept).map (fun p => p.1 ++ "=" ++ p.2.getD ""))

/-- The body of the `try` block of `verifySignature`
(`utils/verifySignature.ts` lines 5-44): a missing or empty `sign`
returns false; then URL-decode the signature, build the canonical
string, MD5 it, and RSA-SHA1-verify — each crypto step may throw. -/
def verifySignatureRun (o : CryptoOracle) (n : PalmPayNotif) : JsRes Bool :=
  match n.sign with
  | none => JsRes.ok false
  | some s =>
    if s = "" then JsRes.ok false
    else
      match o.decodeURIComponent s with
      | JsRes.exn m => JsRes.exn m
      | JsRes.ok decodedSign =>
        let strA := buildStrA n.params
        let md5Str := o.md5UpperHex strA
        o.rsaSha1Verify md5Str decodedSign

/-- `verifySignature`: the whole body is wrapped in `try ... catch`,
which logs and returns `false` (lines 45-48). -/
def verifySignature (o : CryptoOracle) (n : PalmPayNotif) : Bool :=
  match verifySignatureRun o n with
  | JsRes.ok b => b
  | JsRes.exn _ => false

/-- The PalmPay notification DTO consumed by `processPayment` of
`otp.controller.ts` (`orderStatus = 1` means success). -/
structure PaymentDto where
  orderNo : String
  orderAmount : Money
  virtualAccountNo : String
  orderStatus : ℤ
  updateTimeMs : ℤ
deriving DecidableEq

/-- Outcome of `processPayment` (`otp.controller.ts` lines 408-477):
an `AppError` (store untouched), a non-`AppError` throw carrying the
store as left behind, or success. -/
inductive ProcOut
  | appErr (statusCode : ℕ) (msg : String)
  | thrown (s : SysState)
  | ok (s : SysState)
deriving DecidableEq

/-- `processPayment`: duplicate `orderNo` check, binding resolution,
status validation, charge computation, then
`createTransactionRecord` (lines 246-300) which saves the credited
balance **before** `Transaction.create`; a create failure after the
save leaves the balance mutation orphaned. -/
def processPayment (s : SysState) (pd : PaymentDto) : ProcOut :=
  if s.txns.any (fun t => t.orderNo == some pd.orderNo) then
    ProcOut.appErr 200 "Payment already processed"
  else if s.bindings.contains pd.virtualAccountNo = false then
    ProcOut.appErr 400 ("Account not found for virtual account: " ++ pd.virtualAccountNo)
  else if pd.orderStatus ≠ 1 then
    ProcOut.appErr 400 "Order not successful"
  else
    let amountInStandard := pd.orderAmount / 100
    let cn := calculateCharges (chargesPayment s.biz.charges) amountInStandard
    let previousBalance := s.biz.balance
    let newBalance := previousBalance + cn.2
    if newBalance < 0 then ProcOut.thrown s
    else
      let s1 : SysState := { s with biz := { s.biz with balance := newBalance } }
      let tx : Txn :=
        { orderNo := some pd.orderNo, orderId := some pd.orderNo, webhookId := none,
          type := TxnType.payment,
          status := if pd.orderStatus = 1 then TxnStatus.completed else TxnStatus.failed,
          amount := amountInStandard, previousBalance := previousBalance,
          newBalance := newBalance, chargeAmount := cn.1,
          failedAtMs := none, updatedAtMs := pd.updateTimeMs }
      match createTxn s1.txns tx with
      | none => ProcOut.thrown s1
      | some txns1 => ProcOut.ok { s1 with txns := txns1 }

/-- HTTP response of `handlePaymentNotification`. -/
inductive OtpResp
  | invalidIp
  | appError (statusCode : ℕ) (msg : String)
  | serverError
  | processed
deriving DecidableEq

/-- `WebhookActivity` audit log modelled as the list of recorded
statuses, newest first. -/
structure OtpState where
  sys : SysState
  activities : List String
deriving DecidableEq

/-- `PAYVESSEL_IP` of `otp.controller.ts`. -/
def PAYVESSEL_IP : String := "47.254.157.75"

/-- `handlePaymentNotification` (`otp.controller.ts` lines 480-575):
log the inbound webhook, gate on the source IP, run `processPayment`,
log the outcome; an `AppError` is answered with its own status code
(the comment at line 567 reads "Return error status to trigger PalmPay
retry"), other throws with 500. -/
def handlePaymentNotification (st : OtpState) (pd : PaymentDto) (ip : String) :
    OtpResp × OtpState :=
  let st0 : OtpState := { st with activities := "pending" :: st.activities }
  if ip ≠ PAYVESSEL_IP then
    (OtpResp.invalidIp, { st0 with activities := "failed" :: st0.activities })
  else
    match processPayment st0.sys pd with
    | ProcOut.appErr c m =>
      (OtpResp.appError c m, { st0 with activities := "failed" :: st0.activities })
    | ProcOut.thrown s1 =>
      (OtpResp.serverError, { st0 with sys := s1, activities := "failed" :: st0.activities })
    | ProcOut.ok s1 =>
      (OtpResp.processed, { st0 with sys := s1, activities := "success" :: st0.activities })


/-! ## Concrete fixtures -/

/-- A custom percentage policy (opting out of the platform default). -/
def pctPolicy (pct cap : Money) : PaymentChargeCfg :=
  { percentage := pct, cap := cap, useDefault := false,
    fixedPrice := 0, type := ChargeKind.percentage }

/-- A fresh merchant: zero balance, no custom fees, one bound virtual
account. -/
def sysEx : SysState :=
  { biz := { balance := 0, version := 0, charges := none },
    txns := [], bindings := ["1234567890"] }

/-- The Scenario A credit webhook: order `ORD-1`, 10000 minor units on
the bound account, valid signature. -/
def webhookEx : CreditWebhook :=
  { orderNo := "ORD-1", orderAmount := 10000,
    virtualAccountNo := "1234567890", sigValid := true }

/-- A merchant with balance 4000 and default fees, empty caches. -/
def wstEx : WState :=
  { sys := { biz := { balance := 4000, version := 0, charges := none },
             txns := [], bindings := [] },
    attemptCache := [], rateLimitCache := [] }

/-- An oracle whose RSA verification throws (e.g. a malformed key or
signature reaching `crypto.verify`). -/
def oracleExn : CryptoOracle :=
  { decodeURIComponent := fun s => JsRes.ok s,
    md5UpperHex := fun _ => "ABCDEF",
    rsaSha1Verify := fun _ _ => JsRes.exn "bad signature" }

/-- A notification carrying a signature and one parameter. -/
def notifEx : PalmPayNotif :=
  { sign := some "c2ln", params := [("orderNo", some "ORD-1")] }

/-- A credit notification for an account number with no
`AccountNumber` binding in `sysEx`. -/
def pdEx : PaymentDto :=
  { orderNo := "ORD-9", orderAmount := 5000,
    virtualAccountNo := "9999999999", orderStatus := 1, updateTimeMs := 0 }

/-- The otp-path webhook state over `sysEx`. -/
def otpEx : OtpState := { sys := sysEx, activities := [] }

/-- The state after a successful first processing of a credit
webhook. -/
def creditSuccessState (s : SysState) (w : CreditWebhook) (wid : String) : SysState :=
  { biz := { balance := s.biz.balance + netOf s.biz.charges w,
             version := s.biz.version + 1,
             charges := s.biz.charges },
    txns := creditTxnOf s w wid :: s.txns,
    bindings := s.bindings }

/-- The state after only the optimistic-lock version increment of
`initiatePayment` step 6 has been persisted. -/
def lockedState (st : WState) : WState :=
  { sys := { biz := { balance := st.sys.biz.balance,
                      version := st.sys.biz.version + 1,
                      charges := st.sys.biz.charges },
             txns := st.sys.txns, bindings := st.sys.bindings },
    attemptCache := st.attemptCache, rateLimitCache := st.rateLimitCache }

/-- The record created for a withdrawal whose payout call succeeded
(`orderStatus = 2` completes immediately, anything else is pending). -/
def withdrawalTxnOf (st : WState) (amount : Money) (orderId orderNo : String)
    (orderStatus : ℤ) (now : ℤ) : Txn :=
  { orderNo := some orderNo, orderId := some orderId, webhookId := none,
    type := TxnType.withdrawal,
    status := if orderStatus = 2 then TxnStatus.completed else TxnStatus.pending,
    amount := amount, previousBalance := st.sys.biz.balance,
    newBalance := st.sys.biz.balance - amount,
    chargeAmount := withdrawalFee st.sys.biz.charges amount,
    failedAtMs := none, updatedAtMs := now }

/-- The state after a fully successful withdrawal: version bumped,
full amount debited, record inserted, attempt-cache entry removed. -/
def successWState (st : WState) (amount : Money) (orderId : String) (now : ℤ)
    (uid orderNo : String) (orderStatus : ℤ) : WState :=
  { sys := { biz := { balance := st.sys.biz.balance - amount,
                      version := st.sys.biz.version + 1,
                      charges := st.sys.biz.charges },
             txns := withdrawalTxnOf st amount orderId orderNo orderStatus now :: st.sys.txns,
             bindings := st.sys.bindings },
    attemptCache := ((setEntry st.attemptCache uid now).filter
        (fun p => now - p.2 ≤ 600000)).filter (fun p => !(p.1 == uid)),
    rateLimitCache := st.rateLimitCache }

/-- A merchant with balance 6000 and default fees, empty caches. -/
def gapWstEx : WState :=
  { sys := { biz := { balance := 6000, version := 0, charges := none },
             txns := [], bindings := [] },
    attemptCache := [], rateLimitCache := [] }

/-- The state after a withdrawal attempt whose payout call threw: only
the version bump, the attempt-cache entry and the failed audit record
are persisted; the balance is untouched. -/
def failedWState (st : WState) (amount : Money) (orderId : String) (now : ℤ)
    (uid : String) : WState :=
  { sys := { biz := { balance := st.sys.biz.balance,
                      version := st.sys.biz.version + 1,
                      charges := st.sys.biz.charges },
             txns := auditTxn orderId amount st.sys.biz.balance
                 (withdrawalFee st.sys.biz.charges amount) now :: st.sys.txns,
             bindings := st.sys.bindings },
    attemptCache := (setEntry st.attemptCache uid now).filter (fun p => now - p.2 ≤ 600000),
    rateLimitCache := st.rateLimitCache }

/-- The state left by a first withdrawal attempt (amount 3000, order
`W1`, from `wstEx` at time 0) whose payout call threw. -/
def failedOnceWState : WState :=
  { sys := { biz := { balance := 4000, version := 1, charges := none },
             txns := [auditTxn "W1" 3000 4000 20 0], bindings := [] },
    attemptCache := [("biz1-W1", 0)],
    rateLimitCache := [("biz1-ip1", { count := 1, resetTime := 300000 })] }

/-- `failedOnceWState` after the retry's rate-limit increment. -/
def retriedRateState : WState :=
  { sys := failedOnceWState.sys,
    attemptCache := failedOnceWState.attemptCache,
    rateLimitCache := setEntry failedOnceWState.rateLimitCache (businessIdStr ++ "-" ++ "ip1")
      { count := 2, resetTime := 300000 } }

/-- A completed withdrawal record for order `W0`. -/
def completedTxnEx : Txn :=
  { orderNo := some "PP-0", orderId := some "W0", webhookId := none,
    type := TxnType.withdrawal, status := TxnStatus.completed,
    amount := 1000, previousBalance := 5000, newBalance := 4000,
    chargeAmount := 20, failedAtMs := none, updatedAtMs := 0 }

/-- A merchant that has already completed withdrawal `W0`. -/
def completedWState : WState :=
  { sys := { biz := { balance := 4000, version := 1, charges := none },
             txns := [completedTxnEx], bindings := [] },
    attemptCache := [], rateLimitCache := [] }

/-- A valid-signature credit webhook for an account number with no
binding in `sysEx`. -/
def unboundWebhookEx : CreditWebhook :=
  { orderNo := "ORD-2", orderAmount := 10000,
    virtualAccountNo := "9999999999", sigValid := true }

/-- Some stored payment-type record lacks `orderId`, so it occupies
the compound index key `(business, null, 'payment')`. -/
def hasNullIdPaymentB (txns : List Txn) : Bool :=
  txns.any (fun u => u.orderId == none && u.type == TxnType.payment)

/-- The completed credit record `receivePayment` wrote for Scenario A
(`ORD-1`), with no `orderId`. -/
def priorCreditTxn : Txn :=
  { orderNo := some "ORD-1", orderId := none, webhookId := some "w0",
    type := TxnType.payment, status := TxnStatus.completed,
    amount := 100, previousBalance := 0, newBalance := 98.5,
    chargeAmount := 1.5, failedAtMs := none, updatedAtMs := 0 }

/-- The store after the Scenario A credit: one orderId-less payment
record already occupies the `(business, null, 'payment')` index key. -/
def secondCreditState : SysState :=
  { biz := { balance := 98.5, version := 1, charges := none },
    txns := [priorCreditTxn], bindings := ["1234567890"] }

/-- A second, fresh credit webhook (`ORD-2`) for the same merchant. -/
def secondWebhookEx : CreditWebhook :=
  { orderNo := "ORD-2", orderAmount := 10000,
    virtualAccountNo := "1234567890", sigValid := true }

/-! ## Theorems -/

/-! ## C4 — percentage fee with cap -/

/-- C4 counterexample: a policy that opts out of the default with
percentage type and `percentage = 0` is charged the fallback 1.5
percent — `Math.round`-able 15 on an amount of 1000 — instead of the
claimed `min(1000 * 0 / 100, 500) = 0`, because `percentage || 1.5`
treats the configured 0 as missing. -/
theorem percentage_fee_zero_percentage_counterexample :
    receivePaymentCharge (some (pctPolicy 0 500)) 1000 ≠ specPercentageCharge 0 500 1000 := by
  norm_num [receivePaymentCharge, specPercentageCharge, pctPolicy, orDefault, round2, jsRound]

/-- C4 (amended): for a policy that opts out of the platform default
with percentage type and **nonzero** percentage and cap, both charge
calculators compute `min(amount * pct / 100, cap)` rounded to 2
decimal places, and the otp-path net amount is the amount minus that
charge (zero percentage or cap instead selects the platform defaults). -/
theorem percentage_fee_min_cap (a pct cap : Money) (hp : pct ≠ 0) (hc : cap ≠ 0) :
    receivePaymentCharge (some (pctPolicy pct cap)) a = specPercentageCharge pct cap a
    ∧ calculateCharges (some (pctPolicy pct cap)) a
      = (specPercentageCharge pct cap a, a - specPercentageCharge pct cap a) := by
  unfold receivePaymentCharge calculateCharges specPercentageCharge pctPolicy orDefault
  simp [hp, hc]

/-- C4 witness: the amended fee law at 1.5 percent capped at 500, for
an amount below the cap-crossing threshold (1000 → charge 15) and one
above it (1000000 → charge 500). -/
theorem percentage_fee_min_cap_witness :
    (receivePaymentCharge (some (pctPolicy 1.5 500)) 1000 = specPercentageCharge 1.5 500 1000
      ∧ calculateCharges (some (pctPolicy 1.5 500)) 1000000
        = (specPercentageCharge 1.5 500 1000000, 1000000 - specPercentageCharge 1.5 500 1000000))
    ∧ specPercentageCharge 1.5 500 1000 = 15 ∧ specPercentageCharge 1.5 500 1000000 = 500 :=
  ⟨⟨(percentage_fee_min_cap 1000 1.5 500 (by norm_num) (by norm_num)).1,
    (percentage_fee_min_cap 1000000 1.5 500 (by norm_num) (by norm_num)).2⟩,
   by norm_num [specPercentageCharge, round2, jsRound],
   by norm_num [specPercentageCharge, round2, jsRound]⟩

/-! ## C1 — credit webhook replay idempotency -/

/-- `Transaction.create` throws when a record with the same `orderNo`
already exists (the unique sparse index on `orderNo`). -/
theorem createTxn_orderNo_clash (txns : List Txn) (t : Txn) (o : String)
    (ho : t.orderNo = some o) (h : hasOrderNoB txns o = true) :
    createTxn txns t = none := by
  unfold createTxn
  unfold hasOrderNoB at h
  rw [ho]
  simp [h]

/-- A record whose `orderNo` is fresh and whose compound key
`(orderId-or-null, type)` is unoccupied inserts cleanly. -/
theorem createTxn_no_clash (txns : List Txn) (t : Txn) (o : String)
    (ho : t.orderNo = some o)
    (h : hasOrderNoB txns o = false)
    (hc : (txns.any fun u => u.orderId == t.orderId && u.type == t.type) = false) :
    createTxn txns t = some (t :: txns) := by
  unfold createTxn
  unfold hasOrderNoB at h
  rw [ho]
  simp [h, hc]

/-- Replaying any webhook for an `orderNo` that already has a record
leaves the transaction collection, the balance, the fee config and the
bindings untouched (either the duplicate check returns early, or
`Transaction.create` hits the `orderNo` unique index before
`business.save()` runs). -/
theorem receivePaymentStep_replay (s : SysState) (w : CreditWebhook) (wid : String)
    (h : hasOrderNoB s.txns w.orderNo = true) :
    (receivePaymentStep s w wid).txns = s.txns
    ∧ (receivePaymentStep s w wid).biz.balance = s.biz.balance
    ∧ (receivePaymentStep s w wid).biz.charges = s.biz.charges
    ∧ (receivePaymentStep s w wid).bindings = s.bindings := by
  simp only [receivePaymentStep]
  split
  · exact ⟨rfl, rfl, rfl, rfl⟩
  split
  · exact ⟨rfl, rfl, rfl, rfl⟩
  split
  · exact ⟨rfl, rfl, rfl, rfl⟩
  split
  · exact ⟨rfl, rfl, rfl, rfl⟩
  split
  · exact ⟨rfl, rfl, rfl, rfl⟩
  rw [createTxn_orderNo_clash s.txns _ w.orderNo rfl h]
  exact ⟨rfl, rfl, rfl, rfl⟩

/-- First delivery of a valid credit webhook against a store with no
record for its `orderNo`: the optimistic-lock version is bumped, the
net amount is credited, and a single `completed` record is created. -/
theorem receivePaymentStep_fresh (s : SysState) (w : CreditWebhook) (wid : String)
    (hsig : w.sigValid = true)
    (hord : ¬ w.orderNo = "")
    (hva : ¬ w.virtualAccountNo = "")
    (hamt : 0 < w.orderAmount)
    (hbind : s.bindings.contains w.virtualAccountNo = true)
    (hfresh : hasOrderNoB s.txns w.orderNo = false)
    (hkey : hasNullIdPaymentB s.txns = false)
    (hbal : 0 ≤ s.biz.balance + netOf s.biz.charges w) :
    receivePaymentStep s w wid = creditSuccessState s w wid := by
  have hdup : (s.txns.any fun t =>
      t.orderNo == some w.orderNo && t.webhookId == some wid) = false := by
    rw [Bool.eq_false_iff]
    intro hcontra
    rw [List.any_eq_true] at hcontra
    obtain ⟨t, ht, hp⟩ := hcontra
    simp only [Bool.and_eq_true] at hp
    have h1 : hasOrderNoB s.txns w.orderNo = true :=
      List.any_eq_true.mpr ⟨t, ht, hp.1⟩
    rw [hfresh] at h1
    cases h1
  have hnotneg : ¬ s.biz.balance +
      (w.orderAmount / 100 -
        receivePaymentCharge (chargesPayment s.biz.charges) (w.orderAmount / 100)) < 0 := by
    unfold netOf at hbal
    linarith
  simp only [receivePaymentStep, hsig, hdup, hbind,
    Bool.true_eq_false, if_false, if_true]
  rw [if_neg (by push_neg; exact ⟨hord, ne_of_gt hamt, hva⟩),
    if_neg (not_le.mpr hamt),
    createTxn_no_clash s.txns _ w.orderNo rfl hfresh
      (by unfold hasNullIdPaymentB at hkey; exact hkey)]
  simp only [Bool.false_eq_true, if_false]
  rw [if_neg hnotneg]
  unfold creditSuccessState creditTxnOf netOf
  rfl

/-- Any number of further deliveries for an already-recorded `orderNo`
leave the records and the balance unchanged. -/
theorem runCredits_replay (w : CreditWebhook) (wids : List String) :
    ∀ s : SysState, hasOrderNoB s.txns w.orderNo = true →
      (runCredits s w wids).txns = s.txns
      ∧ (runCredits s w wids).biz.balance = s.biz.balance := by
  induction wids with
  | nil => exact fun s _ => ⟨rfl, rfl⟩
  | cons wid rest ih =>
    intro s h
    have hr := receivePaymentStep_replay s w wid h
    have h2 : hasOrderNoB (receivePaymentStep s w wid).txns w.orderNo = true := by
      rw [hr.1]; exact h
    have htail := ih (receivePaymentStep s w wid) h2
    unfold runCredits at htail ⊢
    simp only [List.foldl_cons]
    exact ⟨htail.1.trans hr.1, htail.2.trans hr.2.1⟩

/-- C1 (amended): delivering the identical valid credit webhook any
number of times (one webhook id per delivery — equal ids when the
provider sends an `x-webhook-id` header, fresh generated ids
otherwise) yields exactly one `completed` record for its `orderNo`,
exactly one balance increment of the net (gross minus charge) amount,
and after the first delivery every replay leaves the record set and
the balance unchanged — **provided** no stored payment record lacks
`orderId` (`hasNullIdPaymentB` false, e.g. the merchant's first credit
through this path); otherwise even the first delivery is rejected by
the compound unique index, as the counterexample shows. -/
theorem credit_webhook_replay_idempotent (s : SysState) (w : CreditWebhook)
    (wid0 : String) (wids : List String)
    (hsig : w.sigValid = true)
    (hord : ¬ w.orderNo = "")
    (hva : ¬ w.virtualAccountNo = "")
    (hamt : 0 < w.orderAmount)
    (hbind : s.bindings.contains w.virtualAccountNo = true)
    (hfresh : hasOrderNoB s.txns w.orderNo = false)
    (hkey : hasNullIdPaymentB s.txns = false)
    (hbal : 0 ≤ s.biz.balance + netOf s.biz.charges w) :
    (runCredits s w (wid0 :: wids)).txns.countP
        (fun t => t.orderNo == some w.orderNo && t.status == TxnStatus.completed) = 1
    ∧ (runCredits s w (wid0 :: wids)).biz.balance = s.biz.balance + netOf s.biz.charges w
    ∧ (runCredits s w (wid0 :: wids)).txns = creditTxnOf s w wid0 :: s.txns := by
  have hstep := receivePaymentStep_fresh s w wid0 hsig hord hva hamt hbind hfresh hkey hbal
  have hrun : runCredits s w (wid0 :: wids) = runCredits (creditSuccessState s w wid0) w wids := by
    unfold runCredits
    simp only [List.foldl_cons, hstep]
  have hhead : hasOrderNoB (creditSuccessState s w wid0).txns w.orderNo = true := by
    unfold creditSuccessState creditTxnOf hasOrderNoB
    simp
  have hrest := runCredits_replay w wids (creditSuccessState s w wid0) hhead
  have htxns : (runCredits s w (wid0 :: wids)).txns = creditTxnOf s w wid0 :: s.txns := by
    rw [hrun, hrest.1]
    rfl
  refine ⟨?_, ?_, htxns⟩
  · rw [htxns]
    rw [List.countP_cons_of_pos]
    · have hzero : s.txns.countP
          (fun t => t.orderNo == some w.orderNo && t.status == TxnStatus.completed) = 0 := by
        rw [List.countP_eq_zero]
        intro t ht
        unfold hasOrderNoB at hfresh
        rw [Bool.eq_false_iff] at hfresh
        intro hcontra
        simp only [Bool.and_eq_true] at hcontra
        exact hfresh (List.any_eq_true.mpr ⟨t, ht, hcontra.1⟩)
      rw [hzero]
    · unfold creditTxnOf
      simp
  · rw [hrun, hrest.2]
    rfl

/-- C1 witness: Scenario A/B — `ORD-1` for 10000 minor units delivered
three times against a fresh merchant. -/
theorem credit_webhook_replay_idempotent_witness :
    (runCredits sysEx webhookEx ["w1", "w2", "w3"]).txns.countP
        (fun t => t.orderNo == some webhookEx.orderNo && t.status == TxnStatus.completed) = 1
    ∧ (runCredits sysEx webhookEx ["w1", "w2", "w3"]).biz.balance
        = sysEx.biz.balance + netOf sysEx.biz.charges webhookEx
    ∧ (runCredits sysEx webhookEx ["w1", "w2", "w3"]).txns
        = creditTxnOf sysEx webhookEx "w1" :: sysEx.txns :=
  credit_webhook_replay_idempotent sysEx webhookEx "w1" ["w2", "w3"]
    rfl (by decide) (by decide) (by norm_num [webhookEx]) (by decide) rfl rfl
    (by norm_num [netOf, receivePaymentCharge, chargesPayment, orDefault,
      round2, jsRound, sysEx, webhookEx])

/-! ## C9 — the balance never goes negative -/

/-- Rate limiting touches only `rateLimitCache`. -/
theorem rateStep_preserves (st : WState) (k : String) (now : ℤ) :
    ((rateStep st k now).2).sys = st.sys
    ∧ ((rateStep st k now).2).attemptCache = st.attemptCache := by
  simp only [rateStep]
  split
  · exact ⟨rfl, rfl⟩
  split
  · exact ⟨rfl, rfl⟩
  · exact ⟨rfl, rfl⟩

/-- The processing stage never persists a negative balance: every
branch either leaves the stored balance alone or stores
`balance - amount` under the sufficiency guard. -/
theorem proceedWithdrawal_balance_nonneg (st : WState) (amount : Money)
    (orderId : String) (now : ℤ) (prov : Provider) (uid : String)
    (h : 0 ≤ st.sys.biz.balance) :
    0 ≤ ((proceedWithdrawal st amount orderId now prov uid).2).sys.biz.balance := by
  simp only [proceedWithdrawal]
  split
  · exact h
  split
  · exact h
  split
  · split
    · exact h
    · exact h
  split
  · exact h
  split
  · split
    · exact h
    · exact h
  · rename_i hnl
    split
    · exact le_of_not_lt hnl
    split
    · exact le_of_not_lt hnl
    · exact le_of_not_lt hnl

/-- C9: starting from a non-negative balance, neither the credit
webhook processor nor the withdrawal initiator can persist a negative
balance — credits whose configured fixed fee exceeds the gross amount
are stopped by the `min : 0` balance validator before the write, and
debits sit behind the sufficiency check. -/
theorem balance_never_negative :
    (∀ (s : SysState) (w : CreditWebhook) (wid : String),
        0 ≤ s.biz.balance → 0 ≤ (receivePaymentStep s w wid).biz.balance)
    ∧ (∀ (st : WState) (amount : Money) (orderId otpCode ip : String) (now : ℤ)
        (prov : Provider),
        0 ≤ st.sys.biz.balance →
          0 ≤ ((initiatePayment st amount orderId otpCode ip now prov).2).sys.biz.balance) := by
  constructor
  · intro s w wid h
    simp only [receivePaymentStep]
    split
    · exact h
    split
    · exact h
    split
    · exact h
    split
    · exact h
    split
    · exact h
    split
    · exact h
    split
    · exact h
    · rename_i hnl
      exact le_of_not_lt hnl
  · intro st amount orderId otpCode ip now prov h
    simp only [initiatePayment]
    split
    · exact h
    rcases hrs : rateStep st (businessIdStr ++ "-" ++ ip) now with ⟨o, st1⟩
    have hsys : st1.sys = st.sys := by
      have hp := (rateStep_preserves st (businessIdStr ++ "-" ++ ip) now).1
      rw [hrs] at hp
      exact hp
    have h1 : 0 ≤ st1.sys.biz.balance := by rw [hsys]; exact h
    cases o with
    | some u => exact h1
    | none =>
      dsimp only
      split
      · exact h1
      split
      · split
        · exact h1
        split
        · split
          · exact h1
          · exact proceedWithdrawal_balance_nonneg st1 amount orderId now prov _ h1
        · exact h1
      · exact proceedWithdrawal_balance_nonneg st1 amount orderId now prov _ h1

/-- C9 witness: a credit into the fresh merchant and a withdrawal of
3000 from the balance-4000 merchant both end with a non-negative
stored balance. -/
theorem balance_never_negative_witness :
    0 ≤ (receivePaymentStep sysEx webhookEx "w1").biz.balance
    ∧ 0 ≤ ((initiatePayment wstEx 3000 "W1" "123456" "ip1" 0
        (Provider.resp "00000000" "PP-1" 2)).2).sys.biz.balance :=
  ⟨balance_never_negative.1 sysEx webhookEx "w1" (by norm_num [sysEx]),
   balance_never_negative.2 wstEx 3000 "W1" "123456" "ip1" 0
     (Provider.resp "00000000" "PP-1" 2) (by norm_num [wstEx])⟩

/-! ## C5 — insufficient balance -/

/-- When validation, rate limiting, the attempt cache and the database
idempotency check all pass with no prior record, `initiatePayment`
hands the request to the processing stage. -/
theorem initiatePayment_to_proceed_none (st : WState) (amount : Money)
    (orderId otpCode ip : String) (now : ℤ) (prov : Provider)
    (hf : ¬ (amount = 0 ∨ orderId = "" ∨ otpCode = ""))
    (hrate : (rateStep st (businessIdStr ++ "-" ++ ip) now).1 = none)
    (hcache : cacheHit st.attemptCache (businessIdStr ++ "-" ++ orderId) now = false)
    (hfind : findWithdrawal st.sys.txns orderId = none) :
    initiatePayment st amount orderId otpCode ip now prov =
      proceedWithdrawal ((rateStep st (businessIdStr ++ "-" ++ ip) now).2) amount orderId now
        prov (businessIdStr ++ "-" ++ orderId) := by
  simp only [initiatePayment]
  rw [if_neg hf]
  rcases hrs : rateStep st (businessIdStr ++ "-" ++ ip) now with ⟨o, st1⟩
  have ho : o = none := by
    have hx := hrate
    rw [hrs] at hx
    exact hx
  subst ho
  have hpre := rateStep_preserves st (businessIdStr ++ "-" ++ ip) now
  rw [hrs] at hpre
  dsimp only
  rw [hpre.2, hcache]
  simp only [Bool.false_eq_true, if_false]
  rw [hpre.1, hfind]

/-- With the lock taken, a below-balance request stops at the
sufficiency check: a validation error, balance and records untouched
(only the version increment is persisted). -/
theorem proceedWithdrawal_insufficient (st : WState) (amount : Money) (orderId : String)
    (now : ℤ) (prov : Provider) (uid : String)
    (hmin : ¬ amount < 100) (hbal : st.sys.biz.balance < amount) :
    proceedWithdrawal st amount orderId now prov uid =
      (WOut.insufficientBalance, lockedState st) := by
  simp only [proceedWithdrawal]
  rw [if_neg hmin, if_pos hbal]
  rfl

/-- C5: a withdrawal whose amount exceeds the freshly-read balance is
rejected with the insufficient-balance validation error; the balance,
the records and the attempt cache are unchanged. -/
theorem insufficient_balance_rejection (st : WState) (amount : Money)
    (orderId otpCode ip : String) (now : ℤ) (prov : Provider)
    (hf : ¬ (amount = 0 ∨ orderId = "" ∨ otpCode = ""))
    (hrate : (rateStep st (businessIdStr ++ "-" ++ ip) now).1 = none)
    (hcache : cacheHit st.attemptCache (businessIdStr ++ "-" ++ orderId) now = false)
    (hfind : findWithdrawal st.sys.txns orderId = none)
    (hmin : ¬ amount < 100)
    (hbal : st.sys.biz.balance < amount) :
    (initiatePayment st amount orderId otpCode ip now prov).1 = WOut.insufficientBalance
    ∧ ((initiatePayment st amount orderId otpCode ip now prov).2).sys.biz.balance
        = st.sys.biz.balance
    ∧ ((initiatePayment st amount orderId otpCode ip now prov).2).sys.txns = st.sys.txns
    ∧ ((initiatePayment st amount orderId otpCode ip now prov).2).attemptCache
        = st.attemptCache := by
  have hpre := rateStep_preserves st (businessIdStr ++ "-" ++ ip) now
  rw [initiatePayment_to_proceed_none st amount orderId otpCode ip now prov hf hrate hcache hfind]
  rw [proceedWithdrawal_insufficient _ amount orderId now prov _ hmin (by rw [hpre.1]; exact hbal)]
  unfold lockedState
  refine ⟨rfl, ?_, ?_, ?_⟩
  · simp only
    rw [hpre.1]
  · simp only
    rw [hpre.1]
  · simp only
    rw [hpre.2]

/-- C5 witness: Scenario C — a withdrawal of 5000 against a balance of
4000 is rejected and the balance stays 4000. -/
theorem insufficient_balance_rejection_witness :
    (initiatePayment wstEx 5000 "W1" "123456" "ip1" 0 (Provider.resp "00000000" "PP-1" 2)).1
        = WOut.insufficientBalance
    ∧ ((initiatePayment wstEx 5000 "W1" "123456" "ip1" 0
          (Provider.resp "00000000" "PP-1" 2)).2).sys.biz.balance = wstEx.sys.biz.balance
    ∧ ((initiatePayment wstEx 5000 "W1" "123456" "ip1" 0
          (Provider.resp "00000000" "PP-1" 2)).2).sys.txns = wstEx.sys.txns
    ∧ ((initiatePayment wstEx 5000 "W1" "123456" "ip1" 0
          (Provider.resp "00000000" "PP-1" 2)).2).attemptCache = wstEx.attemptCache :=
  insufficient_balance_rejection wstEx 5000 "W1" "123456" "ip1" 0
    (Provider.resp "00000000" "PP-1" 2)
    (by push_neg; exact ⟨by norm_num, by decide, by decide⟩)
    (by simp [rateStep, wstEx, List.lookup]) rfl rfl
    (by norm_num) (by norm_num [wstEx])

/-! ## C6 — default tier-1 withdrawal fee -/

/-- A record with fresh `orderNo` and fresh `(orderId, type)` inserts
cleanly. -/
theorem createTxn_both_fresh (txns : List Txn) (t : Txn) (o i : String)
    (ho : t.orderNo = some o) (hi : t.orderId = some i)
    (hNo : hasOrderNoB txns o = false)
    (hId : (txns.any fun u => u.orderId == some i && u.type == t.type) = false) :
    createTxn txns t = some (t :: txns) := by
  unfold createTxn
  unfold hasOrderNoB at hNo
  rw [ho, hi]
  simp [hNo, hId]

/-- No record matches the withdrawal natural key. -/
theorem findWithdrawal_none_any (txns : List Txn) (orderId : String)
    (h : findWithdrawal txns orderId = none) :
    (txns.any fun u => u.orderId == some orderId && u.type == TxnType.withdrawal) = false := by
  unfold findWithdrawal at h
  rw [List.find?_eq_none] at h
  rw [Bool.eq_false_iff]
  intro hc
  rw [List.any_eq_true] at hc
  obtain ⟨t, ht, hp⟩ := hc
  exact absurd hp (h t ht)

/-- With no business override (or `useDefault` set) the platform tiers
apply. -/
theorem withdrawalFee_default (charges : Option BusinessCharges)
    (h : usesDefaultTiers charges = true) (a : Money) :
    withdrawalFee charges a = defaultWithdrawalFee a := by
  unfold usesDefaultTiers at h
  cases charges with
  | none => rfl
  | some c =>
    simp only at h
    simp [withdrawalFee, h]

/-- The processing stage on a successful payout call: fee deducted
from the amount sent, full amount debited, record inserted. -/
theorem proceedWithdrawal_success (st : WState) (amount : Money) (orderId : String)
    (now : ℤ) (uid orderNo : String) (orderStatus : ℤ)
    (hmin : ¬ amount < 100)
    (hbal : ¬ st.sys.biz.balance < amount)
    (hNo : hasOrderNoB st.sys.txns orderNo = false)
    (hId : (st.sys.txns.any fun u =>
        u.orderId == some orderId && u.type == TxnType.withdrawal) = false) :
    proceedWithdrawal st amount orderId now (Provider.resp "00000000" orderNo orderStatus) uid =
      (WOut.success orderNo orderStatus
         (⌊(amount - withdrawalFee st.sys.biz.charges amount) * 100⌋)
         (amount - withdrawalFee st.sys.biz.charges amount)
         (withdrawalFee st.sys.biz.charges amount),
       successWState st amount orderId now uid orderNo orderStatus) := by
  simp only [proceedWithdrawal]
  rw [if_neg hmin, if_neg hbal]
  rw [if_neg (not_not_intro rfl)]
  rw [if_neg (not_lt.mpr (by linarith [not_lt.mp hbal]))]
  rw [createTxn_both_fresh _ _ orderNo orderId rfl rfl hNo hId]
  rfl

/-- C6: a processed withdrawal in the default first tier (no custom
tiers; `100 ≤ A ≤ 5000`) is charged the flat fee 20, the provider is
sent `A - 20` converted to minor units (floored cents), and on payout
success the **full** requested amount `A` is debited. -/
theorem default_tier1_withdrawal_fee (st : WState) (amount : Money)
    (orderId otpCode ip orderNo : String) (now orderStatus : ℤ)
    (hf : ¬ (amount = 0 ∨ orderId = "" ∨ otpCode = ""))
    (hrate : (rateStep st (businessIdStr ++ "-" ++ ip) now).1 = none)
    (hcache : cacheHit st.attemptCache (businessIdStr ++ "-" ++ orderId) now = false)
    (hfind : findWithdrawal st.sys.txns orderId = none)
    (htiers : usesDefaultTiers st.sys.biz.charges = true)
    (hlow : 100 ≤ amount) (hhigh : amount ≤ 5000)
    (hbal : ¬ st.sys.biz.balance < amount)
    (hNo : hasOrderNoB st.sys.txns orderNo = false) :
    (initiatePayment st amount orderId otpCode ip now
        (Provider.resp "00000000" orderNo orderStatus)).1
      = WOut.success orderNo orderStatus (⌊(amount - 20) * 100⌋) (amount - 20) 20
    ∧ ((initiatePayment st amount orderId otpCode ip now
        (Provider.resp "00000000" orderNo orderStatus)).2).sys.biz.balance
      = st.sys.biz.balance - amount := by
  have hpre := rateStep_preserves st (businessIdStr ++ "-" ++ ip) now
  rw [initiatePayment_to_proceed_none st amount orderId otpCode ip now _ hf hrate hcache hfind]
  rw [proceedWithdrawal_success _ amount orderId now _ orderNo orderStatus
    (not_lt.mpr (by linarith)) (by rw [hpre.1]; exact hbal)
    (by rw [hpre.1]; exact hNo)
    (by rw [hpre.1]; exact findWithdrawal_none_any _ _ hfind)]
  have hfee : withdrawalFee
      ((rateStep st (businessIdStr ++ "-" ++ ip) now).2).sys.biz.charges amount = 20 := by
    rw [hpre.1, withdrawalFee_default _ htiers]
    unfold defaultWithdrawalFee
    rw [if_pos ⟨by linarith, hhigh⟩]
  constructor
  · show WOut.success orderNo orderStatus _ _ _ = _
    rw [hfee]
  · show (successWState _ amount orderId now _ orderNo orderStatus).sys.biz.balance = _
    unfold successWState
    show ((rateStep st (businessIdStr ++ "-" ++ ip) now).2).sys.biz.balance - amount = _
    rw [hpre.1]

/-- C6 witness: Scenario D — amount 3000 in the default first tier,
fee 20, 298000 minor units sent, full 3000 debited from the balance of
4000. -/
theorem default_tier1_withdrawal_fee_witness :
    ((initiatePayment wstEx 3000 "W1" "123456" "ip1" 0
        (Provider.resp "00000000" "PP-1" 2)).1
      = WOut.success "PP-1" 2 (⌊((3000 : Money) - 20) * 100⌋) ((3000 : Money) - 20) 20
    ∧ ((initiatePayment wstEx 3000 "W1" "123456" "ip1" 0
        (Provider.resp "00000000" "PP-1" 2)).2).sys.biz.balance
      = wstEx.sys.biz.balance - 3000)
    ∧ ⌊((3000 : Money) - 20) * 100⌋ = 298000
    ∧ (3000 : Money) - 20 = 2980 ∧ wstEx.sys.biz.balance - 3000 = 1000 :=
  ⟨default_tier1_withdrawal_fee wstEx 3000 "W1" "123456" "ip1" "PP-1" 0 2
    (by push_neg; exact ⟨by norm_num, by decide, by decide⟩)
    (by simp [rateStep, wstEx, List.lookup]) rfl rfl rfl
    (by norm_num) (by norm_num) (by norm_num [wstEx]) rfl,
   by norm_num, by norm_num, by norm_num [wstEx]⟩

/-! ## C10 — gaps between the withdrawal fee tiers -/

/-- Amounts strictly between the default tier 1 and tier 2 boundaries
match no tier. -/
theorem defaultWithdrawalFee_gap (a : Money) (h1 : 5000 < a) (h2 : a < 5000.01) :
    defaultWithdrawalFee a = 0 := by
  unfold defaultWithdrawalFee
  rw [if_neg (fun hc => absurd hc.2 (not_le.mpr h1)),
    if_neg (fun hc => absurd hc.1 (not_le.mpr h2)),
    if_neg (by intro hc; norm_num at h2 hc; linarith)]

/-- C10: the withdrawal fee tiers have gaps.  (i) Under the default
tiers any amount strictly between 5000 and 5000.01 matches no tier and
the fee is 0.  (ii) Under custom tiers (`useDefault` false) any amount
outside all three ranges gets fee 0.  (iii) End to end, a processed
withdrawal in the default gap is sent to the provider in full
(`⌊A*100⌋` minor units, fee 0) and the full amount is debited. -/
theorem withdrawal_fee_tier_gap :
    (∀ a : Money, 5000 < a → a < 5000.01 → defaultWithdrawalFee a = 0)
    ∧ (∀ (c : BusinessCharges) (a : Money), c.withdrawal.useDefault = false →
        ¬ (c.withdrawal.tier1.min ≤ a ∧ a ≤ c.withdrawal.tier1.max) →
        ¬ (c.withdrawal.tier2.min ≤ a ∧ a ≤ c.withdrawal.tier2.max) →
        ¬ c.withdrawal.tier3.min ≤ a →
        withdrawalFee (some c) a = 0)
    ∧ (∀ (st : WState) (amount : Money) (orderId otpCode ip orderNo : String)
        (now orderStatus : ℤ),
        ¬ (amount = 0 ∨ orderId = "" ∨ otpCode = "") →
        (rateStep st (businessIdStr ++ "-" ++ ip) now).1 = none →
        cacheHit st.attemptCache (businessIdStr ++ "-" ++ orderId) now = false →
        findWithdrawal st.sys.txns orderId = none →
        usesDefaultTiers st.sys.biz.charges = true →
        5000 < amount → amount < 5000.01 →
        ¬ st.sys.biz.balance < amount →
        hasOrderNoB st.sys.txns orderNo = false →
        (initiatePayment st amount orderId otpCode ip now
            (Provider.resp "00000000" orderNo orderStatus)).1
          = WOut.success orderNo orderStatus (⌊amount * 100⌋) amount 0
        ∧ ((initiatePayment st amount orderId otpCode ip now
            (Provider.resp "00000000" orderNo orderStatus)).2).sys.biz.balance
          = st.sys.biz.balance - amount) := by
  refine ⟨defaultWithdrawalFee_gap, ?_, ?_⟩
  · intro c a huse ht1 ht2 ht3
    simp only [withdrawalFee]
    rw [if_pos huse, if_neg ht1, if_neg ht2, if_neg ht3]
  · intro st amount orderId otpCode ip orderNo now orderStatus
      hf hrate hcache hfind htiers hlow hhigh hbal hNo
    have hpre := rateStep_preserves st (businessIdStr ++ "-" ++ ip) now
    rw [initiatePayment_to_proceed_none st amount orderId otpCode ip now _ hf hrate hcache hfind]
    rw [proceedWithdrawal_success _ amount orderId now _ orderNo orderStatus
      (not_lt.mpr (by linarith)) (by rw [hpre.1]; exact hbal)
      (by rw [hpre.1]; exact hNo)
      (by rw [hpre.1]; exact findWithdrawal_none_any _ _ hfind)]
    have hfee : withdrawalFee
        ((rateStep st (businessIdStr ++ "-" ++ ip) now).2).sys.biz.charges amount = 0 := by
      rw [hpre.1, withdrawalFee_default _ htiers]
      exact defaultWithdrawalFee_gap amount hlow hhigh
    constructor
    · show WOut.success orderNo orderStatus _ _ _ = _
      rw [hfee, sub_zero]
    · show (successWState _ amount orderId now _ orderNo orderStatus).sys.biz.balance = _
      unfold successWState
      show ((rateStep st (businessIdStr ++ "-" ++ ip) now).2).sys.biz.balance - amount = _
      rw [hpre.1]

/-- C10 witness: amount 5000.005 — no tier matches, fee 0, 500000
minor units sent (the floored cents of 5000.005), full amount
debited from a balance of 6000. -/
theorem withdrawal_fee_tier_gap_witness :
    defaultWithdrawalFee 5000.005 = 0
    ∧ ((initiatePayment gapWstEx 5000.005 "W1" "123456" "ip1" 0
          (Provider.resp "00000000" "PP-1" 2)).1
        = WOut.success "PP-1" 2 (⌊(5000.005 : Money) * 100⌋) 5000.005 0
      ∧ ((initiatePayment gapWstEx 5000.005 "W1" "123456" "ip1" 0
          (Provider.resp "00000000" "PP-1" 2)).2).sys.biz.balance
        = gapWstEx.sys.biz.balance - 5000.005)
    ∧ ⌊(5000.005 : Money) * 100⌋ = 500000 :=
  ⟨withdrawal_fee_tier_gap.1 5000.005 (by norm_num) (by norm_num),
   withdrawal_fee_tier_gap.2.2 gapWstEx 5000.005 "W1" "123456" "ip1" "PP-1" 0 2
    (by push_neg; exact ⟨by norm_num, by decide, by decide⟩)
    (by simp [rateStep, gapWstEx, List.lookup]) rfl rfl rfl
    (by norm_num) (by norm_num) (by norm_num [gapWstEx]) rfl,
   by norm_num⟩

/-! ## C2 — conservation at record creation -/

/-- A successful insert prepends the record. -/
theorem createTxn_some (txns : List Txn) (t : Txn) (l : List Txn)
    (h : createTxn txns t = some l) : l = t :: txns := by
  simp only [createTxn] at h
  split at h
  · cases h
  · exact (Option.some.inj h).symm

/-- A provider-side throw produces the failed audit record with an
unchanged balance. -/
theorem proceedWithdrawal_netErr (st : WState) (amount : Money) (orderId : String)
    (now : ℤ) (msg uid : String)
    (hmin : ¬ amount < 100) (hbal : ¬ st.sys.biz.balance < amount)
    (hId : (st.sys.txns.any fun u =>
        u.orderId == some orderId && u.type == TxnType.withdrawal) = false) :
    proceedWithdrawal st amount orderId now (Provider.netErr msg) uid =
      (WOut.failedRecorded msg, failedWState st amount orderId now uid) := by
  simp only [proceedWithdrawal]
  rw [if_neg hmin, if_neg hbal]
  have hcr : createTxn st.sys.txns
      (auditTxn orderId amount st.sys.biz.balance
        (withdrawalFee st.sys.biz.charges amount) now)
      = some (auditTxn orderId amount st.sys.biz.balance
        (withdrawalFee st.sys.biz.charges amount) now :: st.sys.txns) := by
    unfold createTxn auditTxn
    simp [hId]
  rw [hcr]
  rfl

/-- C2 counterexample: the failed audit record written when the payout
call throws is a withdrawal-type record created by withdrawal
initiation, yet its `newBalance - previousBalance` is 0, not
`-grossAmount` (here 0 ≠ -3000): the claimed equation fails on it. -/
theorem conservation_counterexample :
    ∃ t : Txn,
      ((initiatePayment wstEx 3000 "W1" "123456" "ip1" 0 (Provider.netErr "timeout")).2).sys.txns
        = [t]
      ∧ t.type = TxnType.withdrawal
      ∧ t.amount = 3000
      ∧ ¬ t.newBalance - t.previousBalance = -t.amount := by
  rw [initiatePayment_to_proceed_none wstEx 3000 "W1" "123456" "ip1" 0 _
    (by push_neg; exact ⟨by norm_num, by decide, by decide⟩)
    (by simp [rateStep, wstEx, List.lookup]) rfl rfl]
  rw [proceedWithdrawal_netErr _ 3000 "W1" 0 "timeout" _
    (by norm_num) (by simp [rateStep, wstEx, List.lookup]; norm_num [wstEx]) (by simp [rateStep, wstEx, List.lookup])]
  refine ⟨auditTxn "W1" 3000 4000 20 0, ?_, rfl, rfl, by norm_num [auditTxn]⟩
  show (failedWState _ 3000 "W1" 0 _).sys.txns = _
  simp [failedWState, rateStep, wstEx, List.lookup, auditTxn, withdrawalFee,
    defaultWithdrawalFee]
  norm_num

/-- The processing stage preserves the conservation invariant of every
stored record and only adds records satisfying it. -/
theorem proceedWithdrawal_conserves (st : WState) (amount : Money) (orderId : String)
    (now : ℤ) (prov : Provider) (uid : String)
    (hinv : ∀ t ∈ st.sys.txns, conserves t) :
    ∀ t ∈ ((proceedWithdrawal st amount orderId now prov uid).2).sys.txns, conserves t := by
  have haudit : ∀ (i : String) (a b f : Money) (n : ℤ), conserves (auditTxn i a b f n) := by
    intro i a b f n
    refine ⟨fun hp => absurd hp (by simp [auditTxn]), fun _ hs => absurd rfl hs, fun _ _ => rfl⟩
  simp only [proceedWithdrawal]
  split
  · exact hinv
  split
  · exact hinv
  split
  · -- netErr branch
    split
    · rename_i txns2 heq
      intro t ht
      rw [createTxn_some _ _ _ heq] at ht
      rcases List.mem_cons.mp ht with h | h
      · subst h; exact haudit _ _ _ _ _
      · exact hinv t h
    · exact hinv
  split
  · exact hinv
  split
  · -- save validator rejected
    split
    · rename_i txns2 heq
      intro t ht
      rw [createTxn_some _ _ _ heq] at ht
      rcases List.mem_cons.mp ht with h | h
      · subst h; exact haudit _ _ _ _ _
      · exact hinv t h
    · exact hinv
  · -- save succeeded
    split
    · rename_i txns2 heq
      intro t ht
      rw [createTxn_some _ _ _ heq] at ht
      rcases List.mem_cons.mp ht with h | h
      · subst h
        refine ⟨fun hp => absurd hp (by simp), fun _ _ => by ring, fun _ hs => absurd hs ?_⟩
        split
        · simp
        · simp
      · exact hinv t h
    · -- record insert failed, audit insert attempted
      split
      · rename_i txns2 heq
        intro t ht
        rw [createTxn_some _ _ _ heq] at ht
        rcases List.mem_cons.mp ht with h | h
        · subst h; exact haudit _ _ _ _ _
        · exact hinv t h
      · exact hinv

/-- C2 (amended): every record created by the credit webhook processor
satisfies `newBalance - previousBalance = amount - charge`; withdrawal
records created on a successful payout satisfy
`newBalance - previousBalance = -amount`; the failed withdrawal audit
records copy the balance (`newBalance = previousBalance`).  Both
operations preserve this for all stored records, so it holds chained
across consecutive events. -/
theorem conservation_at_creation :
    (∀ (s : SysState) (w : CreditWebhook) (wid : String),
      (∀ t ∈ s.txns, conserves t) →
        ∀ t ∈ (receivePaymentStep s w wid).txns, conserves t)
    ∧ (∀ (st : WState) (amount : Money) (orderId otpCode ip : String) (now : ℤ)
        (prov : Provider),
      (∀ t ∈ st.sys.txns, conserves t) →
        ∀ t ∈ ((initiatePayment st amount orderId otpCode ip now prov).2).sys.txns,
          conserves t) := by
  constructor
  · intro s w wid hinv
    simp only [receivePaymentStep]
    split
    · exact hinv
    split
    · exact hinv
    split
    · exact hinv
    split
    · exact hinv
    split
    · exact hinv
    split
    · exact hinv
    split
    · -- balance validator rejected; record marked failed
      intro t ht
      rcases List.mem_cons.mp ht with h | h
      · subst h
        exact ⟨fun _ => by ring, fun hw => absurd hw (by simp), fun hw => absurd hw (by simp)⟩
      · exact hinv t h
    · -- completed credit
      rename_i txns1 heq hlt
      intro t ht
      rw [createTxn_some _ _ _ heq] at ht
      rcases List.mem_cons.mp ht with h | h
      · subst h
        exact ⟨fun _ => by ring, fun hw => absurd hw (by simp), fun hw => absurd hw (by simp)⟩
      · exact hinv t h
  · intro st amount orderId otpCode ip now prov hinv
    simp only [initiatePayment]
    split
    · exact hinv
    rcases hrs : rateStep st (businessIdStr ++ "-" ++ ip) now with ⟨o, st1⟩
    have hsys : st1.sys = st.sys := by
      have hp := (rateStep_preserves st (businessIdStr ++ "-" ++ ip) now).1
      rw [hrs] at hp
      exact hp
    have h1 : ∀ t ∈ st1.sys.txns, conserves t := by rw [hsys]; exact hinv
    cases o with
    | some u => exact h1
    | none =>
      dsimp only
      split
      · exact h1
      split
      · split
        · exact h1
        split
        · split
          · exact h1
          · exact proceedWithdrawal_conserves st1 amount orderId now prov _ h1
        · exact h1
      · exact proceedWithdrawal_conserves st1 amount orderId now prov _ h1

/-- C2 witness: the record created by the Scenario A credit satisfies
the amended conservation law (`newBalance - previousBalance
= 98.5 = 100 - 1.5`). -/
theorem conservation_at_creation_witness :
    conserves (creditTxnOf sysEx webhookEx "w1") :=
  conservation_at_creation.1 sysEx webhookEx "w1" (fun t ht => absurd ht (by simp [sysEx]))
    (creditTxnOf sysEx webhookEx "w1")
    (by rw [receivePaymentStep_fresh sysEx webhookEx "w1" rfl (by decide) (by decide)
          (by norm_num [webhookEx]) (by decide) rfl rfl
          (by norm_num [netOf, receivePaymentCharge, chargesPayment, orDefault,
            round2, jsRound, sysEx, webhookEx])]
        exact List.mem_cons_self _ _)

/-! ## C3 — withdrawal idempotency policy -/

/-- C3 counterexample: after a failed attempt at time 0, a retry at
time 180000 (3 minutes — past the 2-minute cooldown from `failedAt`)
is still rejected fast as a duplicate by the in-process
`paymentAttemptCache` (5-minute window), so the claim's "allowed to
proceed after the cooldown" fails; the rejecting state is reachable
from `wstEx` by the first failed attempt itself. -/
theorem withdrawal_retry_cooldown_counterexample :
    (initiatePayment wstEx 3000 "W1" "123456" "ip1" 0 (Provider.netErr "timeout")).2
      = failedOnceWState
    ∧ (initiatePayment failedOnceWState 3000 "W1" "123456" "ip1" 180000
        (Provider.netErr "timeout")).1 = WOut.dupCache
    ∧ findWithdrawal failedOnceWState.sys.txns "W1" = some (auditTxn "W1" 3000 4000 20 0)
    ∧ (auditTxn "W1" 3000 4000 20 0).status = TxnStatus.failed
    ∧ (120000 : ℤ) ≤ 180000 - ((auditTxn "W1" 3000 4000 20 0).failedAtMs.getD
        ((auditTxn "W1" 3000 4000 20 0).updatedAtMs) ) := by
  refine ⟨?_, ?_, ?_, rfl, by norm_num [auditTxn]⟩
  · rw [initiatePayment_to_proceed_none wstEx 3000 "W1" "123456" "ip1" 0 _
      (by push_neg; exact ⟨by norm_num, by decide, by decide⟩)
      (by simp [rateStep, wstEx, List.lookup]) rfl rfl]
    rw [proceedWithdrawal_netErr _ 3000 "W1" 0 "timeout" _
      (by norm_num) (by simp [rateStep, wstEx, List.lookup]; norm_num [wstEx])
      (by simp [rateStep, wstEx, List.lookup])]
    simp [failedWState, failedOnceWState, rateStep, wstEx, List.lookup, setEntry,
      auditTxn, withdrawalFee, defaultWithdrawalFee, businessIdStr]
    norm_num
  · simp only [initiatePayment]
    rw [if_neg (by push_neg; exact ⟨by norm_num, by decide, by decide⟩)]
    have hlk : List.lookup (businessIdStr ++ "-" ++ "ip1") failedOnceWState.rateLimitCache
        = some { count := 1, resetTime := 300000 } := by decide
    have hrs : rateStep failedOnceWState (businessIdStr ++ "-" ++ "ip1") 180000
        = (none, retriedRateState) := by
      simp only [rateStep, hlk, Option.getD_some]
      rw [if_neg (by norm_num), if_neg (by norm_num)]
      rfl
    rw [hrs]
    have hch : cacheHit retriedRateState.attemptCache (businessIdStr ++ "-" ++ "W1") 180000
        = true := by decide
    dsimp only
    rw [hch]
    rfl
  · simp [findWithdrawal, failedOnceWState, auditTxn, List.find?, beq_iff_eq]

/-- The processing stage never answers with one of the fail-fast guard
rejections. -/
theorem proceedWithdrawal_not_guard (st : WState) (amount : Money) (orderId : String)
    (now : ℤ) (prov : Provider) (uid : String) :
    isGuardReject (proceedWithdrawal st amount orderId now prov uid).1 = false := by
  simp only [proceedWithdrawal]
  split
  · rfl
  split
  · rfl
  split
  · split
    · rfl
    · rfl
  split
  · rfl
  split
  · split
    · rfl
    · rfl
  · split
    · rfl
    split
    · rfl
    · rfl

/-- C3 (amended): for a request whose natural key matches a stored
record and which passes the in-process rate limiter and
duplicate-attempt cache: a `completed` record is replayed as the
deterministic idempotent response built from the stored record with no
store mutation; a `pending` record fails fast as a conflict; a
`failed` record fails fast as a conflict inside the 2-minute cooldown
from `failedAt`; past the cooldown the request is handed to fresh
processing (no fail-fast guard rejection) — note the duplicate-attempt
cache can still reject retries between 2 and 5 minutes, which is what
the counterexample exhibits. -/
theorem withdrawal_idempotency_policy (st : WState) (amount : Money)
    (orderId otpCode ip : String) (now : ℤ) (prov : Provider) (ex : Txn)
    (hf : ¬ (amount = 0 ∨ orderId = "" ∨ otpCode = ""))
    (hrate : (rateStep st (businessIdStr ++ "-" ++ ip) now).1 = none)
    (hcache : cacheHit st.attemptCache (businessIdStr ++ "-" ++ orderId) now = false)
    (hfind : findWithdrawal st.sys.txns orderId = some ex) :
    (ex.status = TxnStatus.completed →
      initiatePayment st amount orderId otpCode ip now prov
        = (WOut.idempotentCompleted ex.orderNo (ex.amount * 100) ex.amount,
           (rateStep st (businessIdStr ++ "-" ++ ip) now).2)
      ∧ ((initiatePayment st amount orderId otpCode ip now prov).2).sys = st.sys)
    ∧ (ex.status = TxnStatus.pending →
      (initiatePayment st amount orderId otpCode ip now prov).1 = WOut.pendingConflict
      ∧ ((initiatePayment st amount orderId otpCode ip now prov).2).sys = st.sys)
    ∧ (ex.status = TxnStatus.failed →
      now - ex.failedAtMs.getD ex.updatedAtMs < 120000 →
      (initiatePayment st amount orderId otpCode ip now prov).1 = WOut.failedRetryWait
      ∧ ((initiatePayment st amount orderId otpCode ip now prov).2).sys = st.sys)
    ∧ (ex.status = TxnStatus.failed →
      120000 ≤ now - ex.failedAtMs.getD ex.updatedAtMs →
      initiatePayment st amount orderId otpCode ip now prov
        = proceedWithdrawal ((rateStep st (businessIdStr ++ "-" ++ ip) now).2)
            amount orderId now prov (businessIdStr ++ "-" ++ orderId)
      ∧ isGuardReject (initiatePayment st amount orderId otpCode ip now prov).1 = false) := by
  simp only [initiatePayment]
  rw [if_neg hf]
  rcases hrs : rateStep st (businessIdStr ++ "-" ++ ip) now with ⟨o, st1⟩
  have ho : o = none := by
    have hx := hrate
    rw [hrs] at hx
    exact hx
  subst ho
  have hpre := rateStep_preserves st (businessIdStr ++ "-" ++ ip) now
  rw [hrs] at hpre
  dsimp only at hpre ⊢
  rw [hpre.2, hcache]
  simp only [Bool.false_eq_true, if_false]
  rw [hpre.1, hfind]
  dsimp only
  refine ⟨?_, ?_, ?_, ?_⟩
  · intro hc
    rw [if_pos hc]
    exact ⟨rfl, hpre.1⟩
  · intro hp
    rw [if_neg (by simp [hp]), if_neg (by simp [hp])]
    exact ⟨rfl, hpre.1⟩
  · intro hfl hta
    rw [if_neg (by simp [hfl]), if_pos hfl, if_pos hta]
    exact ⟨rfl, hpre.1⟩
  · intro hfl htb
    rw [if_neg (by simp [hfl]), if_pos hfl, if_neg (not_lt.mpr htb)]
    exact ⟨rfl, proceedWithdrawal_not_guard st1 amount orderId now prov _⟩

/-- C3 witness: replaying completed withdrawal `W0` returns the
idempotent response built from the stored record and performs no new
debit. -/
theorem withdrawal_idempotency_policy_witness :
    initiatePayment completedWState 1000 "W0" "123456" "ip1" 0 (Provider.netErr "unused")
      = (WOut.idempotentCompleted completedTxnEx.orderNo (completedTxnEx.amount * 100)
          completedTxnEx.amount,
         (rateStep completedWState (businessIdStr ++ "-" ++ "ip1") 0).2)
    ∧ ((initiatePayment completedWState 1000 "W0" "123456" "ip1" 0
        (Provider.netErr "unused")).2).sys = completedWState.sys :=
  (withdrawal_idempotency_policy completedWState 1000 "W0" "123456" "ip1" 0
    (Provider.netErr "unused") completedTxnEx
    (by push_neg; exact ⟨by norm_num, by decide, by decide⟩)
    (by simp [rateStep, completedWState, List.lookup]) rfl
    (by simp [findWithdrawal, completedWState, completedTxnEx, List.find?, beq_iff_eq])).1
    rfl

/-! ## C7 — the signature verifier absorbs exceptions -/

/-- C7: for every notification and every behaviour of the crypto
primitives, `verifySignature` returns a boolean: a missing `sign`
yields `false`, any exception thrown inside the `try` body is absorbed
by the `catch` and yields `false`, and otherwise the result is exactly
the RSA verification's boolean. -/
theorem verifySignature_absorbs_exceptions (o : CryptoOracle) (n : PalmPayNotif) :
    (n.sign = none → verifySignature o n = false)
    ∧ (∀ m : String, verifySignatureRun o n = JsRes.exn m → verifySignature o n = false)
    ∧ (∀ b : Bool, verifySignatureRun o n = JsRes.ok b → verifySignature o n = b) := by
  refine ⟨?_, ?_, ?_⟩
  · intro hs
    unfold verifySignature verifySignatureRun
    rw [hs]
  · intro m hm
    unfold verifySignature
    rw [hm]
  · intro b hb
    unfold verifySignature
    rw [hb]

/-- C7 witness: an oracle whose RSA verification throws is absorbed to
`false`, and a missing `sign` field also yields `false`. -/
theorem verifySignature_absorbs_exceptions_witness :
    verifySignature oracleExn notifEx = false
    ∧ verifySignature oracleExn { sign := none, params := [] } = false :=
  ⟨(verifySignature_absorbs_exceptions oracleExn notifEx).2.1 "bad signature" rfl,
   (verifySignature_absorbs_exceptions oracleExn { sign := none, params := [] }).1 rfl⟩

/-! ## C8 — unresolvable virtual-account binding -/

/-- C8 counterexample: the `handlePaymentNotification` path answers a
structurally unresolvable account with HTTP 400 (its comment says "to
trigger PalmPay retry"), not with a success acknowledgement as
claimed; the store is untouched and the failure is logged. -/
theorem missing_binding_response_counterexample :
    (handlePaymentNotification otpEx pdEx PAYVESSEL_IP).1
      = OtpResp.appError 400 "Account not found for virtual account: 9999999999"
    ∧ (handlePaymentNotification otpEx pdEx PAYVESSEL_IP).1 ≠ OtpResp.processed
    ∧ ((handlePaymentNotification otpEx pdEx PAYVESSEL_IP).2).sys = otpEx.sys
    ∧ ((handlePaymentNotification otpEx pdEx PAYVESSEL_IP).2).activities
      = ["failed", "pending"] := by
  have hproc : processPayment sysEx pdEx
      = ProcOut.appErr 400 "Account not found for virtual account: 9999999999" := by
    unfold processPayment
    simp [pdEx, sysEx]
  refine ⟨?_, ?_, ?_, ?_⟩ <;>
    simp [handlePaymentNotification, hproc, otpEx]

/-- C8 (amended): a credit webhook whose virtual account number has no
binding applies no balance mutation and creates no record on either
path; the `receivePayment` path has already acknowledged success (the
200 response precedes processing), while the `handlePaymentNotification`
path logs the failure and answers 400 so that the provider retries. -/
theorem missing_binding_no_mutation (s : SysState) (w : CreditWebhook) (wid : String)
    (st : OtpState) (pd : PaymentDto)
    (hw : s.bindings.contains w.virtualAccountNo = false)
    (hdup : (st.sys.txns.any fun t => t.orderNo == some pd.orderNo) = false)
    (hpd : st.sys.bindings.contains pd.virtualAccountNo = false) :
    (receivePaymentStep s w wid = s)
    ∧ (w.sigValid = true → receivePaymentAck w = CreditAck.successAck)
    ∧ ((handlePaymentNotification st pd PAYVESSEL_IP).1
        = OtpResp.appError 400 ("Account not found for virtual account: " ++ pd.virtualAccountNo))
    ∧ ((handlePaymentNotification st pd PAYVESSEL_IP).2).sys = st.sys
    ∧ ((handlePaymentNotification st pd PAYVESSEL_IP).2).activities
        = "failed" :: "pending" :: st.activities := by
  have hproc : processPayment st.sys pd
      = ProcOut.appErr 400 ("Account not found for virtual account: " ++ pd.virtualAccountNo) := by
    unfold processPayment
    rw [hdup]
    simp only [Bool.false_eq_true, if_false]
    rw [hpd]
    simp
  have hrecv : receivePaymentStep s w wid = s := by
    simp only [receivePaymentStep]
    split
    · rfl
    split
    · rfl
    split
    · rfl
    split
    · rfl
    rfl
  have hhandler := handlePaymentNotification st pd PAYVESSEL_IP
  refine ⟨hrecv, ?_, ?_, ?_, ?_⟩
  · intro hsig
    unfold receivePaymentAck
    rw [hsig]
    simp
  all_goals simp [handlePaymentNotification, hproc]

/-- C8 witness: the unbound account `9999999999` — no mutation on the
`receivePayment` path, success acknowledgement there, and the logged
400 on the otp path. -/
theorem missing_binding_no_mutation_witness :
    (receivePaymentStep sysEx unboundWebhookEx "w1" = sysEx)
    ∧ (receivePaymentAck unboundWebhookEx = CreditAck.successAck)
    ∧ ((handlePaymentNotification otpEx pdEx PAYVESSEL_IP).1
        = OtpResp.appError 400 ("Account not found for virtual account: " ++ pdEx.virtualAccountNo))
    ∧ ((handlePaymentNotification otpEx pdEx PAYVESSEL_IP).2).sys = otpEx.sys
    ∧ ((handlePaymentNotification otpEx pdEx PAYVESSEL_IP).2).activities
        = "failed" :: "pending" :: otpEx.activities := by
  have h := missing_binding_no_mutation sysEx unboundWebhookEx "w1" otpEx pdEx
    (by decide) rfl (by decide)
  exact ⟨h.1, h.2.1 rfl, h.2.2.1, h.2.2.2.1, h.2.2.2.2⟩

/-- Inserting a record whose compound key `(orderId-or-null, type)` is
already occupied throws. -/
theorem createTxn_compound_clash (txns : List Txn) (t : Txn)
    (h : (txns.any fun u => u.orderId == t.orderId && u.type == t.type) = true) :
    createTxn txns t = none := by
  unfold createTxn
  simp [h]

/-- A valid credit webhook with a fresh `orderNo`, delivered to a
store that already holds an orderId-less payment record, is rejected
by the compound unique index inside `Transaction.create`: no record is
created, `business.save()` never runs, and only the lock's version
bump persists. -/
theorem receivePaymentStep_keyClash (s : SysState) (w : CreditWebhook) (wid : String)
    (hsig : w.sigValid = true)
    (hord : ¬ w.orderNo = "")
    (hva : ¬ w.virtualAccountNo = "")
    (hamt : 0 < w.orderAmount)
    (hbind : s.bindings.contains w.virtualAccountNo = true)
    (hfresh : hasOrderNoB s.txns w.orderNo = false)
    (hkey : hasNullIdPaymentB s.txns = true) :
    receivePaymentStep s w wid
      = { s with biz := { s.biz with version := s.biz.version + 1 } } := by
  have hdup : (s.txns.any fun t =>
      t.orderNo == some w.orderNo && t.webhookId == some wid) = false := by
    rw [Bool.eq_false_iff]
    intro hcontra
    rw [List.any_eq_true] at hcontra
    obtain ⟨t, ht, hp⟩ := hcontra
    simp only [Bool.and_eq_true] at hp
    have h1 : hasOrderNoB s.txns w.orderNo = true :=
      List.any_eq_true.mpr ⟨t, ht, hp.1⟩
    rw [hfresh] at h1
    cases h1
  simp only [receivePaymentStep, hsig, hdup, hbind,
    Bool.true_eq_false, if_false, if_true]
  rw [if_neg (by push_neg; exact ⟨hord, ne_of_gt hamt, hva⟩),
    if_neg (not_le.mpr hamt),
    createTxn_compound_clash s.txns _ (by unfold hasNullIdPaymentB at hkey; exact hkey)]
  simp only [Bool.false_eq_true, if_false]

/-- C1 counterexample: once the Scenario A credit record (written
without `orderId`) is stored, delivering a perfectly valid credit
webhook for the **fresh** order `ORD-2` even once (N = 1) produces
zero completed records for that `orderNo` and no balance increment:
`Transaction.create` collides on the compound unique sparse index key
`(business, null, 'payment')` before `business.save()` runs.  This
refutes "exactly one `completed` record and exactly one balance
increment" as stated. -/
theorem credit_replay_counterexample :
    hasOrderNoB secondCreditState.txns secondWebhookEx.orderNo = false
    ∧ (receivePaymentStep secondCreditState secondWebhookEx "w1").txns.countP
        (fun t => t.orderNo == some secondWebhookEx.orderNo
          && t.status == TxnStatus.completed) = 0
    ∧ (receivePaymentStep secondCreditState secondWebhookEx "w1").biz.balance
        = secondCreditState.biz.balance
    ∧ (receivePaymentStep secondCreditState secondWebhookEx "w1").txns
        = secondCreditState.txns := by
  have h := receivePaymentStep_keyClash secondCreditState secondWebhookEx "w1"
    rfl (by decide) (by decide) (by norm_num [secondWebhookEx]) (by decide)
    (by decide) (by decide)
  refine ⟨by decide, ?_, ?_, ?_⟩
  · rw [h]
    decide
  · rw [h]
  · rw [h]
